import Mathlib

/-!
# Verification of the Adaptive-AUTOSAR diagnostic / service-discovery core

Shallow embedding of:
* `UdsServiceRouter::Route` (src/unnamed/part_001, part_002),
* the SD client availability state machine around `ServiceReadyState`
  (src/unnamed/part_001),
* `SomeIpMessage` session-identifier and byte-injection helpers
  (src/src/ara/com/someip/someip_message.h),
* `ara::core::Optional` value access (src/src/ara/core/optional.h),
together with theorems settling the frozen claims about them.
-/

namespace AdaptiveAutosar

/-! ## UDS service router

`UdsServiceRouter` keeps a `std::map<uint8_t, RoutableUdsService*> mServices`.
`Route` looks the SID up; when the service is present and offered it forwards
the request to `HandleMessage`, otherwise it builds a negative response
`{cNegativeResponseSid, sid, cServiceNotSupportedNrc}` and returns it through
an already-fulfilled promise/future pair. -/

structure OperationOutput where
  responseData : List Nat
deriving DecidableEq, Repr

/-- A `std::future<OperationOutput>`: either a future whose promise was already
fulfilled with a value before it was returned (`ready`), or a still-pending
asynchronous computation identified abstractly (`pendingTask`). -/
inductive UdsFuture where
  | ready (output : OperationOutput)
  | pendingTask (token : Nat)
deriving DecidableEq, Repr

/-- The slice of the `RoutableUdsService` interface the router consumes:
`IsOffered()` and `HandleMessage(requestData, metaInfo, cancellationHandler)`.
`M` is the `MetaInfo` type and `C` the `CancellationHandler` type; the router
treats both as opaque. -/
structure RoutableUdsService (M C : Type) where
  IsOffered : Bool
  HandleMessage : List Nat → M → C → UdsFuture

/-- `UdsServiceRouter`: the SID-to-service registry `mServices`
(`std::map<uint8_t, RoutableUdsService*>`, modelled as an association list). -/
structure UdsServiceRouter (M C : Type) where
  mServices : List (Nat × RoutableUdsService M C)

/-- `cNegativeResponseSid{0x7f}` from the router header. -/
def cNegativeResponseSid : Nat := 0x7f

/-- `cServiceNotSupportedNrc{0x11}` from the router header. -/
def cServiceNotSupportedNrc : Nat := 0x11

/-- `UdsServiceRouter::Route`. Returns the future together with the router
state after the call (the body only reads `mServices`, so the returned state
is the receiver unchanged). -/
def UdsServiceRouter.Route {M C : Type} (router : UdsServiceRouter M C)
    (sid : Nat) (requestData : List Nat) (metaInfo : M)
    (cancellationHandler : C) : UdsFuture × UdsServiceRouter M C :=
  match router.mServices.lookup sid with
  | some service =>
      if service.IsOffered then
        (service.HandleMessage requestData metaInfo cancellationHandler, router)
      else
        (UdsFuture.ready
          ⟨[cNegativeResponseSid, sid, cServiceNotSupportedNrc]⟩, router)
  | none =>
      (UdsFuture.ready
        ⟨[cNegativeResponseSid, sid, cServiceNotSupportedNrc]⟩, router)

end AdaptiveAutosar

namespace AdaptiveAutosar

/-- C1: for every SID that is unregistered, or registered but not offered,
`Route` returns an already-completed future whose response bytes are exactly
`[0x7F, sid, 0x11]`, the requested SID echoed back as the middle byte. -/
theorem route_negative_response {M C : Type} (router : UdsServiceRouter M C)
    (sid : Nat) (requestData : List Nat) (metaInfo : M)
    (cancellationHandler : C)
    (hsid : sid < 256)
    (h : router.mServices.lookup sid = none ∨
      ∃ service, router.mServices.lookup sid = some service ∧
        service.IsOffered = false) :
    (router.Route sid requestData metaInfo cancellationHandler).1 =
      UdsFuture.ready ⟨[0x7f, sid, 0x11]⟩ := by
  rcases h with h | ⟨service, hfind, hoff⟩
  · simp [UdsServiceRouter.Route, h, cNegativeResponseSid,
      cServiceNotSupportedNrc]
  · simp [UdsServiceRouter.Route, hfind, hoff, cNegativeResponseSid,
      cServiceNotSupportedNrc]

/-- A sample service that is not offered, for exercising the router. -/
def sampleUnofferedService : RoutableUdsService Nat Nat :=
  ⟨false, fun _ _ _ => UdsFuture.pendingTask 0⟩

/-- A sample router with only the unoffered service registered at SID 0x22. -/
def sampleRouterUnoffered : UdsServiceRouter Nat Nat :=
  ⟨[(0x22, sampleUnofferedService)]⟩

/-- A sample offered service whose handler output depends on its inputs. -/
def sampleOfferedService : RoutableUdsService Nat Nat :=
  ⟨true, fun data meta c => UdsFuture.pendingTask (data.length + meta + c)⟩

/-- A sample router with the offered service registered at SID 0x22. -/
def sampleRouterOffered : UdsServiceRouter Nat Nat :=
  ⟨[(0x22, sampleOfferedService)]⟩

/-- Witness for C1: a concrete router with SID 0x22 registered but not
offered, queried both at the unregistered SID 0x10 and the unoffered 0x22. -/
theorem route_negative_response_witness :
    (sampleRouterUnoffered.Route 0x10 [0x10, 0x01] 0 0).1 =
      UdsFuture.ready ⟨[0x7f, 0x10, 0x11]⟩ ∧
    (sampleRouterUnoffered.Route 0x22 [0x22] 0 0).1 =
      UdsFuture.ready ⟨[0x7f, 0x22, 0x11]⟩ := by
  refine ⟨?_, ?_⟩
  · exact route_negative_response sampleRouterUnoffered 0x10 [0x10, 0x01] 0 0
      (by decide) (Or.inl rfl)
  · exact route_negative_response sampleRouterUnoffered 0x22 [0x22] 0 0
      (by decide) (Or.inr ⟨sampleUnofferedService, rfl, rfl⟩)

/-- C5: for a registered SID whose service is offered, `Route` returns exactly
the future produced by that service's `HandleMessage` on the unmodified
request bytes, metadata and cancellation handler. -/
theorem route_pass_through {M C : Type} (router : UdsServiceRouter M C)
    (sid : Nat) (requestData : List Nat) (metaInfo : M)
    (cancellationHandler : C) (service : RoutableUdsService M C)
    (hfind : router.mServices.lookup sid = some service)
    (hoff : service.IsOffered = true) :
    (router.Route sid requestData metaInfo cancellationHandler).1 =
      service.HandleMessage requestData metaInfo cancellationHandler := by
  simp [UdsServiceRouter.Route, hfind, hoff]

/-- Witness for C5: a concrete offered service whose handler result is
returned untouched, with the request bytes, metadata and handler it saw. -/
theorem route_pass_through_witness :
    (sampleRouterOffered.Route 0x22 [0x22, 0x03] 40 1).1 =
      UdsFuture.pendingTask 43 := by
  have h := route_pass_through sampleRouterOffered 0x22 [0x22, 0x03] 40 1
    sampleOfferedService rfl rfl
  exact h.trans rfl

/-! ## SD client availability state machine

The repository ships `ServiceReadyState` (src/unnamed/part_001): its
`Activate`, `Deactivate`, `onTimerExpired`, `ServiceNotRequested`,
`ServiceOffered`, `ServiceStopped` handlers and destructor are embedded
from that source. The surrounding pieces — the `helper::TtlTimer`, the
`Transit` mechanics of `MachineState`, and the other states' handlers — are
not under src/ and are modelled from the spec (sections 4.2 and 6). -/

/-- The `helper::SdClientState` enumeration as used by the spec's table. -/
inductive SdClientState where
  | Stopped
  | InitialWaitPhase
  | ServiceSeen
  | ServiceReady
deriving DecidableEq, Repr

/-- Modelled from the spec: `helper::TtlTimer` is not under src/. Per the
spec's external-interface contract, it is a single-shot resettable countdown:
`Reset(ttl)` restarts it at a new duration, `Cancel()` stops it without
firing, and `SetExpirationCallback` / `ResetExpirationCallback` register and
unregister the one-shot expiry handler. The model keeps whether the countdown
is running, whether a handler is registered, and the current duration. -/
structure TtlTimer where
  running : Bool
  hasExpirationCallback : Bool
  ttl : Nat
deriving DecidableEq, Repr

/-- `TtlTimer::Reset(ttl)`: restart the countdown at the new duration. -/
def TtlTimer.Reset (t : TtlTimer) (ttl : Nat) : TtlTimer :=
  { t with running := true, ttl := ttl }

/-- `TtlTimer::Cancel()`: stop the countdown without firing. -/
def TtlTimer.Cancel (t : TtlTimer) : TtlTimer :=
  { t with running := false }

/-- `TtlTimer::SetExpirationCallback`: register the expiry handler. -/
def TtlTimer.SetExpirationCallback (t : TtlTimer) : TtlTimer :=
  { t with hasExpirationCallback := true }

/-- `TtlTimer::ResetExpirationCallback`: unregister the expiry handler. -/
def TtlTimer.ResetExpirationCallback (t : TtlTimer) : TtlTimer :=
  { t with hasExpirationCallback := false }

/-- Whether a natural expiry of the timer would invoke a registered handler:
the countdown must be running and a handler registered. -/
def TtlTimer.expiryInvokesCallback (t : TtlTimer) : Bool :=
  t.running && t.hasExpirationCallback

/-- One availability machine: the current state, `ServiceReadyState`'s
`mClientRequested` / `mActivated` members (initialised `true` / `false` by
its constructor), the shared lease timer, and the number of `notify_one`
calls on the machine's condition variable (the wake signal). -/
structure SdClientMachine where
  state : SdClientState
  mClientRequested : Bool
  mActivated : Bool
  Timer : TtlTimer
  notifyCount : Nat
deriving DecidableEq, Repr

/-- `ServiceReadyState::Deactivate`: `Timer->ResetExpirationCallback()`, then
restore `mClientRequested := true` and `mActivated := false`. -/
def deactivateServiceReady (m : SdClientMachine) : SdClientMachine :=
  { m with Timer := m.Timer.ResetExpirationCallback,
           mClientRequested := true, mActivated := false }

/-- `Deactivate` of the state being left. `ServiceReadyState::Deactivate` is
from the source; modelled from the spec for the other states, whose exit
behaviour the spec leaves unspecified (no side effects). -/
def deactivateCurrent (m : SdClientMachine) : SdClientMachine :=
  match m.state with
  | SdClientState.ServiceReady => deactivateServiceReady m
  | _ => m

/-- `ServiceReadyState::Activate`, from the source: set `mActivated := true`;
if `mClientRequested` is false, `Transit(ServiceSeen)` (which runs
`ServiceReadyState::Deactivate` and enters `ServiceSeen`); then in either
case `notify_one` on the condition variable and
`Timer->SetExpirationCallback(...)` binding `onTimerExpired`. -/
def activateServiceReady (m : SdClientMachine) : SdClientMachine :=
  let m1 := { m with mActivated := true }
  let m2 :=
    if m1.mClientRequested then m1
    else { deactivateServiceReady m1 with state := SdClientState.ServiceSeen }
  let m3 := { m2 with notifyCount := m2.notifyCount + 1 }
  { m3 with Timer := m3.Timer.SetExpirationCallback }

/-- `MachineState::Transit(next)`: modelled from the spec — deactivate the
current state, switch to `next`, run the entry actions of `next`. Only
`ServiceReady` has entry actions (from the source); the spec records none
for the other states. -/
def transit (m : SdClientMachine) (next : SdClientState) : SdClientMachine :=
  let md := deactivateCurrent m
  let me := { md with state := next }
  match next with
  | SdClientState.ServiceReady => activateServiceReady me
  | _ => me

/-- Discovery and client-demand events driving one machine, plus the timer's
natural expiry. -/
inductive SdClientEvent where
  | ServiceOffered (ttl : Nat)
  | ServiceRequested
  | ServiceNotRequested
  | ServiceStopped
  | TimerExpired
deriving DecidableEq, Repr

/-- One transition of the availability machine.

From the source (`ServiceReadyState`, current state `ServiceReady`):
`ServiceOffered(ttl)` is `Timer->Reset(ttl)`; `ServiceNotRequested` transits
to `ServiceSeen` when `mActivated`, otherwise only clears `mClientRequested`;
`ServiceStopped` is `Timer->Cancel()` then `Transit(Stopped)`;
`onTimerExpired` is `Transit(InitialWaitPhase)`.

Modelled from the spec (the other states' handlers are not under src/,
spec section 4.2's transition table): in `InitialWaitPhase` an offer starts
the lease timer at the offer TTL and enters `ServiceReady` when the client
requested the service, else enters `ServiceSeen` with no timer started; in
`ServiceSeen` a client request restarts the lease timer and enters
`ServiceReady`; explicit withdrawal cancels the timer and enters `Stopped`
from any non-`Stopped` state; "client stops requesting, not yet activated"
only flips `mClientRequested` to false. `Stopped` is terminal until
restarted. `TimerExpired` is the timer's own mechanism: it only happens
while the countdown runs, stops the countdown, and invokes the registered
handler (`ServiceReadyState::onTimerExpired`) if there is one. -/
def step (m : SdClientMachine) (e : SdClientEvent) : SdClientMachine :=
  match e with
  | SdClientEvent.TimerExpired =>
      if m.Timer.running then
        let m1 := { m with Timer := { m.Timer with running := false } }
        if m1.Timer.hasExpirationCallback then
          transit m1 SdClientState.InitialWaitPhase
        else m1
      else m
  | SdClientEvent.ServiceOffered ttl =>
      match m.state with
      | SdClientState.ServiceReady =>
          { m with Timer := m.Timer.Reset ttl }
      | SdClientState.InitialWaitPhase =>
          if m.mClientRequested then
            transit { m with Timer := m.Timer.Reset ttl }
              SdClientState.ServiceReady
          else transit m SdClientState.ServiceSeen
      | _ => m
  | SdClientEvent.ServiceRequested =>
      match m.state with
      | SdClientState.ServiceSeen =>
          transit { m with mClientRequested := true,
                           Timer := m.Timer.Reset m.Timer.ttl }
            SdClientState.ServiceReady
      | _ => m
  | SdClientEvent.ServiceNotRequested =>
      match m.state with
      | SdClientState.ServiceReady =>
          if m.mActivated then transit m SdClientState.ServiceSeen
          else { m with mClientRequested := false }
      | SdClientState.Stopped => m
      | _ =>
          if m.mActivated then m
          else { m with mClientRequested := false }
  | SdClientEvent.ServiceStopped =>
      match m.state with
      | SdClientState.Stopped => m
      | _ => transit { m with Timer := m.Timer.Cancel } SdClientState.Stopped

/-- `ServiceReadyState::~ServiceReadyState()`, from the source: the machine
is torn down after `Timer->ResetExpirationCallback()`; the timer outlives
the machine and is returned. -/
def destroyServiceReadyState (m : SdClientMachine) : TtlTimer :=
  m.Timer.ResetExpirationCallback

/-- A machine in `InitialWaitPhase` with the constructor-default flags
(`mClientRequested = true`, `mActivated = false`) and an idle timer. -/
def initialWaitMachine : SdClientMachine :=
  ⟨SdClientState.InitialWaitPhase, true, false, ⟨false, false, 0⟩, 0⟩

/-- A machine in `InitialWaitPhase` whose client has signalled it does not
request the service (`mClientRequested = false`), timer idle. -/
def initialWaitNotRequestedMachine : SdClientMachine :=
  ⟨SdClientState.InitialWaitPhase, false, false, ⟨false, false, 0⟩, 0⟩

/-- The corrected availability invariant: the expiration callback is
registered exactly in `ServiceReady`, and in `ServiceReady` the lease timer
is running. (The converse of the latter fails: the timer can keep running
in `ServiceSeen`, see the counterexample.) -/
@[reducible] def TimerCallbackInvariant (m : SdClientMachine) : Prop :=
  (m.state = SdClientState.ServiceReady → m.Timer.running = true) ∧
  (m.Timer.hasExpirationCallback = true ↔ m.state = SdClientState.ServiceReady)

/-- C10: `Route` never changes the SID-to-service registry: the registry after
any call is the registry before it, whatever the SID and offer state. -/
theorem route_preserves_registry {M C : Type} (router : UdsServiceRouter M C)
    (sid : Nat) (requestData : List Nat) (metaInfo : M)
    (cancellationHandler : C) :
    (router.Route sid requestData metaInfo cancellationHandler).2.mServices =
      router.mServices := by
  unfold UdsServiceRouter.Route
  cases router.mServices.lookup sid with
  | none => rfl
  | some service => by_cases h : service.IsOffered <;> simp [h]

/-! ## SOME/IP message model

`someip_message.h` is under src/ and fixes the header fields, the enums and
the declarations of `IncrementSessionId` and the `Inject` helpers; the
bodies of those members live in a translation unit that is not under src/,
so they are modelled from the spec. -/

/-- `SomeIpMessageType` from the header. -/
inductive SomeIpMessageType where
  | Request
  | RequestNoReturn
  | Notification
  | Response
  | ErrorResponse
  | TpRequest
  | TpRequestNoReturn
  | TpNotification
  | TpResponse
  | TpError
deriving DecidableEq, Repr

/-- `SomeIpReturnCode` from the header. -/
inductive SomeIpReturnCode where
  | eOK
  | eNotOk
  | eUnknownService
  | eUnknownMethod
  | eNotReady
  | eNotReachable
  | eTimeout
  | eWrongProtocolVersion
  | eWrongInterfaceVersion
  | eMalformedMessage
  | eWrongMessageType
  | eE2eRepeated
  | eE2eWrongSequnece
  | eE2e
  | eE2eNotAvailable
  | eE2eNoNewData
deriving DecidableEq, Repr

/-- `SomeIpMessage` header fields, from the class declaration. Machine
integers are naturals: `mMessageId < 2^32`, `mClientId`/`mSessionId < 2^16`,
the versions `< 2^8` where it matters. -/
structure SomeIpMessage where
  mMessageId : Nat
  mClientId : Nat
  mSessionId : Nat
  mProtocolVersion : Nat
  mInterfaceVersion : Nat
  mMessageType : SomeIpMessageType
  mReturnCode : SomeIpReturnCode
deriving DecidableEq, Repr

/-- `SomeIpMessage::SessionId()`: pure accessor. -/
def SomeIpMessage.SessionId (m : SomeIpMessage) : Nat :=
  m.mSessionId

/-- Modelled from the spec: the body of `SomeIpMessage::IncrementSessionId`
is not under src/ (the header only declares it, with the note that on
wrapping the session ID restarts from 1). Per the spec, the counter advances
by one; past the 16-bit maximum it wraps to 1 — never 0 — and the return
value reports whether a wrap occurred. -/
def SomeIpMessage.IncrementSessionId (m : SomeIpMessage) :
    SomeIpMessage × Bool :=
  let next := (m.mSessionId + 1) % 65536
  if next = 0 then ({ m with mSessionId := 1 }, true)
  else ({ m with mSessionId := next }, false)

/-- Modelled from the spec: the body of the 16-bit
`SomeIpMessage::Inject(vector, value)` overload is not under src/. Per the
spec it appends the value to the byte vector in big-endian (network) order:
most significant byte first. -/
def SomeIpMessage.InjectU16 (vector : List Nat) (value : Nat) : List Nat :=
  vector ++ [value / 256 % 256, value % 256]

/-- Modelled from the spec: the body of the 32-bit
`SomeIpMessage::Inject(vector, value)` overload is not under src/. Per the
spec it appends the four bytes most significant first. -/
def SomeIpMessage.InjectU32 (vector : List Nat) (value : Nat) : List Nat :=
  vector ++ [value / 16777216 % 256, value / 65536 % 256, value / 256 % 256,
    value % 256]

/-- A sample request message with a given session identifier. -/
def sampleMessage (sessionId : Nat) : SomeIpMessage :=
  ⟨0x12345678, 0x0001, sessionId, 1, 1, SomeIpMessageType.Request,
    SomeIpReturnCode.eOK⟩

/-- C3: for a current session identifier `v` with `1 ≤ v < 65535`,
`IncrementSessionId` yields `v + 1` and reports no wrap; at `v = 65535` it
wraps to 1 — never 0 — and reports the wrap; after any increment of an
in-range identifier, `SessionId()` is never 0. -/
theorem increment_session_id_spec (m : SomeIpMessage) :
    (1 ≤ m.mSessionId → m.mSessionId < 65535 →
      m.IncrementSessionId =
        ({ m with mSessionId := m.mSessionId + 1 }, false)) ∧
    (m.mSessionId = 65535 →
      m.IncrementSessionId = ({ m with mSessionId := 1 }, true)) ∧
    (m.mSessionId < 65536 → (m.IncrementSessionId.1).SessionId ≠ 0) := by
  refine ⟨?_, ?_, ?_⟩
  · intro _ h2
    have hmod : (m.mSessionId + 1) % 65536 = m.mSessionId + 1 :=
      Nat.mod_eq_of_lt (by omega)
    simp [SomeIpMessage.IncrementSessionId, hmod]
  · intro h
    simp [SomeIpMessage.IncrementSessionId, h]
  · intro _
    by_cases h0 : (m.mSessionId + 1) % 65536 = 0 <;>
      simp [SomeIpMessage.IncrementSessionId, SomeIpMessage.SessionId, h0]

/-- Witness for C3: incrementing session identifiers 7 and 65535. -/
theorem increment_session_id_spec_witness :
    (sampleMessage 7).IncrementSessionId = (sampleMessage 8, false) ∧
    (sampleMessage 65535).IncrementSessionId = (sampleMessage 1, true) ∧
    ((sampleMessage 65535).IncrementSessionId.1).SessionId ≠ 0 :=
  ⟨(((increment_session_id_spec (sampleMessage 7)).1 (by decide)
      (by decide)).trans (by decide)),
    (((increment_session_id_spec (sampleMessage 65535)).2.1
      (by decide)).trans (by decide)),
    ((increment_session_id_spec (sampleMessage 65535)).2.2 (by decide))⟩

/-- C6: the 16-bit `Inject` appends exactly two bytes, most significant
first, and the 32-bit `Inject` appends exactly four bytes, most significant
first: each appended entry is a byte, and reassembling them big-endian
recovers the injected value; in particular injecting `0x1234` appends
`0x12` then `0x34`. -/
theorem inject_big_endian (vector : List Nat) (v16 v32 : Nat)
    (h16 : v16 < 65536) (h32 : v32 < 4294967296) :
    SomeIpMessage.InjectU16 vector v16 =
        vector ++ [v16 / 256, v16 % 256] ∧
      v16 / 256 < 256 ∧ v16 % 256 < 256 ∧
      (v16 / 256) * 256 + v16 % 256 = v16 ∧
      SomeIpMessage.InjectU32 vector v32 =
        vector ++
          [v32 / 16777216, v32 / 65536 % 256, v32 / 256 % 256, v32 % 256] ∧
      v32 / 16777216 < 256 ∧ v32 / 65536 % 256 < 256 ∧
      v32 / 256 % 256 < 256 ∧ v32 % 256 < 256 ∧
      (v32 / 16777216) * 16777216 + (v32 / 65536 % 256) * 65536 +
        (v32 / 256 % 256) * 256 + v32 % 256 = v32 ∧
      SomeIpMessage.InjectU16 [] 0x1234 = [0x12, 0x34] := by
  have hd16 : v16 / 256 < 256 := Nat.div_lt_of_lt_mul (by omega)
  have hd32 : v32 / 16777216 < 256 := Nat.div_lt_of_lt_mul (by omega)
  have e1 : v32 / 256 / 256 = v32 / 65536 := by
    rw [Nat.div_div_eq_div_mul]
  have e2 : v32 / 256 / 256 / 256 = v32 / 16777216 := by
    rw [Nat.div_div_eq_div_mul, Nat.div_div_eq_div_mul]
  have h1 := Nat.div_add_mod v32 256
  have h2 := Nat.div_add_mod (v32 / 256) 256
  have h3 := Nat.div_add_mod (v32 / 256 / 256) 256
  have h4 := Nat.div_add_mod v16 256
  refine ⟨?_, hd16, Nat.mod_lt _ (by omega), by omega, ?_, hd32,
    Nat.mod_lt _ (by omega), Nat.mod_lt _ (by omega), Nat.mod_lt _ (by omega),
    ?_, by decide⟩
  · simp [SomeIpMessage.InjectU16, Nat.mod_eq_of_lt hd16]
  · simp [SomeIpMessage.InjectU32, Nat.mod_eq_of_lt hd32]
  · rw [← e1, ← e2] at *
    omega

/-- Witness for C6: injecting `0x1234` after an existing byte, and the
32-bit value `0xDEADBEEF` into an empty vector. -/
theorem inject_big_endian_witness :
    SomeIpMessage.InjectU16 [0xAA] 0x1234 = [0xAA, 0x12, 0x34] ∧
    SomeIpMessage.InjectU32 [] 0xDEADBEEF = [0xDE, 0xAD, 0xBE, 0xEF] := by
  have h := inject_big_endian [0xAA] 0x1234 0xDEADBEEF (by decide) (by decide)
  have h' := inject_big_endian [] 0x1234 0xDEADBEEF (by decide) (by decide)
  exact ⟨h.1.trans (by decide), (h'.2.2.2.2.1).trans (by decide)⟩

/-! ## `ara::core::Optional` value access

`optional.h` is fully under src/. The accessors keep the C++ control flow:
the has-value branch of `Value()` and of the const `operator*` returns the
held value; both throw `std::runtime_error("Optional contains no value.")`
when empty. The has-value branch of `operator->` is the expression statement
`&mValue;` — the result is discarded and control reaches the end of the
value-returning function without a `return`. -/

/-- Outcome of one C++ accessor call: it returned a value, it threw
`std::runtime_error(message)`, or control fell off the end of a
value-returning function without returning (undefined behaviour). -/
inductive AccessOutcome (α : Type) where
  | returned (value : α)
  | runtimeError (message : String)
  | fellOffEnd
deriving DecidableEq, Repr

/-- `ara::core::Optional`: the stored value slot and the `mHasValue` flag. -/
structure Optional (α : Type) where
  mValue : α
  mHasValue : Bool
deriving DecidableEq, Repr

/-- `Optional::operator*` (const lvalue overload). -/
def Optional.star {α : Type} (o : Optional α) : AccessOutcome α :=
  if o.mHasValue then AccessOutcome.returned o.mValue
  else AccessOutcome.runtimeError "Optional contains no value."

/-- `Optional::Value` (const lvalue overload). -/
def Optional.Value {α : Type} (o : Optional α) : AccessOutcome α :=
  if o.mHasValue then AccessOutcome.returned o.mValue
  else AccessOutcome.runtimeError "Optional contains no value."

/-- `Optional::operator->`: the empty branch throws; the has-value branch
evaluates `&mValue;` without returning it, so the function ends without a
`return` statement. -/
def Optional.arrow {α : Type} (o : Optional α) : AccessOutcome α :=
  if o.mHasValue then AccessOutcome.fellOffEnd
  else AccessOutcome.runtimeError "Optional contains no value."

/-- C9 (evaluation at the failing input): on an empty `Optional`, `Value()`,
`operator*` and `operator->` all throw the distinct runtime error and never
return a default; on an `Optional` holding 5, `Value()` and `operator*`
return 5, but `operator->` falls off the end of the function instead of
returning the value — the missing `return` before `&mValue;`, contradicting
its own documented contract. -/
theorem optional_arrow_missing_return :
    Optional.star (⟨5, true⟩ : Optional Nat) = AccessOutcome.returned 5 ∧
    Optional.Value (⟨5, true⟩ : Optional Nat) = AccessOutcome.returned 5 ∧
    Optional.arrow (⟨5, true⟩ : Optional Nat) = AccessOutcome.fellOffEnd ∧
    Optional.arrow (⟨5, true⟩ : Optional Nat) ≠ AccessOutcome.returned 5 ∧
    Optional.star (⟨0, false⟩ : Optional Nat) =
      AccessOutcome.runtimeError "Optional contains no value." ∧
    Optional.Value (⟨0, false⟩ : Optional Nat) =
      AccessOutcome.runtimeError "Optional contains no value." ∧
    Optional.arrow (⟨0, false⟩ : Optional Nat) =
      AccessOutcome.runtimeError "Optional contains no value." := by
  decide

/-- C2 (counterexample): "the lease timer is running iff the state is
ServiceReady" is not an invariant. From `InitialWaitPhase` an offer takes the
machine to `ServiceReady` (timer running — the iff holds before and after),
but the subsequent `ServiceNotRequested` transition to `ServiceSeen` runs
`ServiceReadyState::Deactivate`, which only unregisters the expiration
callback and never cancels the timer: the machine lands in `ServiceSeen`
with the lease timer still running. -/
theorem timer_runs_iff_ready_counterexample :
    (initialWaitMachine.Timer.running = true ↔
      initialWaitMachine.state = SdClientState.ServiceReady) ∧
    ((step initialWaitMachine (SdClientEvent.ServiceOffered 5)).Timer.running
        = true ↔
      (step initialWaitMachine (SdClientEvent.ServiceOffered 5)).state =
        SdClientState.ServiceReady) ∧
    (step (step initialWaitMachine (SdClientEvent.ServiceOffered 5))
        SdClientEvent.ServiceNotRequested).state =
      SdClientState.ServiceSeen ∧
    (step (step initialWaitMachine (SdClientEvent.ServiceOffered 5))
        SdClientEvent.ServiceNotRequested).Timer.running = true := by
  decide

/-- C2 (amended): from `InitialWaitPhase` with `mClientRequested = false` and
an idle timer, an offer yields `ServiceSeen` with no running timer and no
registered expiration callback; and the corrected invariant — the expiration
callback is registered iff the state is `ServiceReady`, and in `ServiceReady`
the timer runs — is preserved by every transition. -/
theorem availability_machine_invariant (m : SdClientMachine)
    (e : SdClientEvent) (ttl : Nat) (hinv : TimerCallbackInvariant m) :
    TimerCallbackInvariant (step m e) ∧
    (m.state = SdClientState.InitialWaitPhase →
      m.mClientRequested = false → m.Timer.running = false →
      (step m (SdClientEvent.ServiceOffered ttl)).state =
          SdClientState.ServiceSeen ∧
        (step m (SdClientEvent.ServiceOffered ttl)).Timer.running = false ∧
        (step m (SdClientEvent.ServiceOffered ttl)).Timer.hasExpirationCallback
          = false) := by
  obtain ⟨st, cr, act, ⟨run, cb, ttl0⟩, n⟩ := m
  constructor
  · cases e <;> cases st <;> cases cr <;> cases act <;> cases run <;>
      cases cb <;>
      simp_all [TimerCallbackInvariant, step, transit, deactivateCurrent,
        deactivateServiceReady,
        activateServiceReady, TtlTimer.Reset, TtlTimer.Cancel,
        TtlTimer.SetExpirationCallback, TtlTimer.ResetExpirationCallback]
  · intro hst hcr hrun
    subst hst
    simp_all [TimerCallbackInvariant, step, transit, deactivateCurrent,
      deactivateServiceReady,
      activateServiceReady, TtlTimer.Reset, TtlTimer.Cancel,
      TtlTimer.SetExpirationCallback, TtlTimer.ResetExpirationCallback]

/-- Witness for the amended C2: the machine in `InitialWaitPhase` with
`mClientRequested = false` receiving an offer of TTL 7. -/
theorem availability_machine_invariant_witness :
    TimerCallbackInvariant
      (step initialWaitNotRequestedMachine (SdClientEvent.ServiceOffered 7)) ∧
    (initialWaitNotRequestedMachine.state = SdClientState.InitialWaitPhase →
      initialWaitNotRequestedMachine.mClientRequested = false →
      initialWaitNotRequestedMachine.Timer.running = false →
      (step initialWaitNotRequestedMachine
          (SdClientEvent.ServiceOffered 7)).state =
          SdClientState.ServiceSeen ∧
        (step initialWaitNotRequestedMachine
          (SdClientEvent.ServiceOffered 7)).Timer.running = false ∧
        (step initialWaitNotRequestedMachine
          (SdClientEvent.ServiceOffered 7)).Timer.hasExpirationCallback
          = false) :=
  availability_machine_invariant initialWaitNotRequestedMachine
    (SdClientEvent.ServiceOffered 7) 7 (by decide)

/-- C4: in `ServiceReady` with the lease timer running and the expiration
callback registered, the timer expiring drives
`ServiceReadyState::onTimerExpired`, i.e. `Transit(InitialWaitPhase)`;
the transition runs `ServiceReadyState::Deactivate`, so afterwards the state
is `InitialWaitPhase` and no expiration callback remains registered. -/
theorem timer_expiry_to_initial_wait (m : SdClientMachine)
    (hstate : m.state = SdClientState.ServiceReady)
    (hrun : m.Timer.running = true)
    (hcb : m.Timer.hasExpirationCallback = true) :
    (step m SdClientEvent.TimerExpired).state =
        SdClientState.InitialWaitPhase ∧
      (step m SdClientEvent.TimerExpired).Timer.hasExpirationCallback
        = false := by
  simp [step, hrun, hcb, transit, deactivateCurrent, hstate,
    deactivateServiceReady, TtlTimer.ResetExpirationCallback]

/-- Witness for C4: the concrete `ServiceReady` machine reached from
`InitialWaitPhase` by an offer of TTL 5, hit by timer expiry. -/
theorem timer_expiry_to_initial_wait_witness :
    (step (step initialWaitMachine (SdClientEvent.ServiceOffered 5))
        SdClientEvent.TimerExpired).state =
        SdClientState.InitialWaitPhase ∧
      (step (step initialWaitMachine (SdClientEvent.ServiceOffered 5))
        SdClientEvent.TimerExpired).Timer.hasExpirationCallback = false :=
  timer_expiry_to_initial_wait
    (step initialWaitMachine (SdClientEvent.ServiceOffered 5))
    (by decide) (by decide) (by decide)

/-- C7: destroying the machine while in `ServiceReady` runs
`ServiceReadyState::~ServiceReadyState()`, i.e.
`Timer->ResetExpirationCallback()`: the timer left behind holds no
expiration callback, so a natural expiry afterwards invokes nothing. -/
theorem destroy_ready_clears_callback (m : SdClientMachine)
    (hstate : m.state = SdClientState.ServiceReady) :
    (destroyServiceReadyState m).hasExpirationCallback = false ∧
      (destroyServiceReadyState m).expiryInvokesCallback = false := by
  simp [destroyServiceReadyState, TtlTimer.ResetExpirationCallback,
    TtlTimer.expiryInvokesCallback]

/-- Witness for C7: destroying the concrete `ServiceReady` machine reached
by an offer of TTL 5 (its timer still running, callback registered). -/
theorem destroy_ready_clears_callback_witness :
    TtlTimer.hasExpirationCallback (destroyServiceReadyState
        (step initialWaitMachine (SdClientEvent.ServiceOffered 5))) = false ∧
      TtlTimer.expiryInvokesCallback (destroyServiceReadyState
        (step initialWaitMachine (SdClientEvent.ServiceOffered 5))) = false :=
  destroy_ready_clears_callback
    (step initialWaitMachine (SdClientEvent.ServiceOffered 5)) (by decide)

/-- C8: from every non-`Stopped` state, the explicit-withdrawal event
(`ServiceStopped`) cancels the lease timer and lands in the terminal
`Stopped` state: `Stopped` is reachable from `ServiceReady`, `ServiceSeen`
and `InitialWaitPhase` via this one event. -/
theorem service_stopped_reaches_stopped (m : SdClientMachine)
    (h : m.state ≠ SdClientState.Stopped) :
    (step m SdClientEvent.ServiceStopped).state = SdClientState.Stopped ∧
      (step m SdClientEvent.ServiceStopped).Timer.running = false := by
  obtain ⟨st, cr, act, ⟨run, cb, ttl0⟩, n⟩ := m
  cases st <;>
    simp_all [step, transit, deactivateCurrent, deactivateServiceReady,
      TtlTimer.Cancel, TtlTimer.ResetExpirationCallback]

/-- Witness for C8: withdrawal from all three non-terminal states — the
concrete `InitialWaitPhase`, `ServiceSeen` and `ServiceReady` machines of
the earlier scenarios. -/
theorem service_stopped_reaches_stopped_witness :
    ((step initialWaitMachine SdClientEvent.ServiceStopped).state =
        SdClientState.Stopped ∧
      (step initialWaitMachine SdClientEvent.ServiceStopped).Timer.running
        = false) ∧
    ((step (step initialWaitMachine (SdClientEvent.ServiceOffered 5))
        SdClientEvent.ServiceStopped).state = SdClientState.Stopped ∧
      (step (step initialWaitMachine (SdClientEvent.ServiceOffered 5))
        SdClientEvent.ServiceStopped).Timer.running = false) ∧
    ((step (step initialWaitNotRequestedMachine
          (SdClientEvent.ServiceOffered 9))
        SdClientEvent.ServiceStopped).state = SdClientState.Stopped ∧
      (step (step initialWaitNotRequestedMachine
          (SdClientEvent.ServiceOffered 9))
        SdClientEvent.ServiceStopped).Timer.running = false) :=
  ⟨service_stopped_reaches_stopped initialWaitMachine (by decide),
    service_stopped_reaches_stopped
      (step initialWaitMachine (SdClientEvent.ServiceOffered 5)) (by decide),
    service_stopped_reaches_stopped
      (step initialWaitNotRequestedMachine (SdClientEvent.ServiceOffered 9))
      (by decide)⟩

end AdaptiveAutosar
